import Mathlib

set_option maxRecDepth 4000

/-!
Verification development for the streamlit-blog repository.

The repository holds two near-identical single-file front-ends,
src/main.py (first variant) and src/new_ui.py (second variant).
Each is a streamlit script: on every run it reads a mutable session
(auth tokens, user record, current page, transient navigation flags),
renders the page selected by the page field, and mutates the session in
widget handlers.  We embed the session as a record, JSON bodies as an
inductive value type with Python truthiness, each widget handler as a
pure function from session (plus the HTTP response the backend would
return) to a new session together with the list of HTTP requests issued
and the list of user-visible output events, and the top-level page
dispatch of each variant as a function over the session.  Python
expressions that can raise are embedded in an Except monad whose error
carries the exception; a streamlit rerun simply ends the run, so a
handler that reruns just returns the state it had built.
-/

/-- JSON-like values as Python sees them after response.json():
None, booleans, numbers (modelled as integers; no claim touches
fractional payloads), strings, lists and dicts (assoc lists). -/
inductive JVal where
  | null
  | bool (b : Bool)
  | num (n : Int)
  | str (s : String)
  | arr (xs : List JVal)
  | obj (kvs : List (String × JVal))

mutual

/-- Decidable equality on JVal, needed because dict keys and the
pending-delete set compare blog ids for equality. -/
def JVal.decEq : (a b : JVal) → Decidable (a = b)
  | JVal.null, JVal.null => isTrue rfl
  | JVal.bool a, JVal.bool b =>
      if h : a = b then isTrue (by rw [h])
      else isFalse (fun hh => h (by injection hh))
  | JVal.num a, JVal.num b =>
      if h : a = b then isTrue (by rw [h])
      else isFalse (fun hh => h (by injection hh))
  | JVal.str a, JVal.str b =>
      if h : a = b then isTrue (by rw [h])
      else isFalse (fun hh => h (by injection hh))
  | JVal.arr xs, JVal.arr ys =>
      match decEqArr xs ys with
      | isTrue h => isTrue (by rw [h])
      | isFalse h => isFalse (fun hh => h (by injection hh))
  | JVal.obj xs, JVal.obj ys =>
      match decEqObj xs ys with
      | isTrue h => isTrue (by rw [h])
      | isFalse h => isFalse (fun hh => h (by injection hh))
  | JVal.null, JVal.bool _ => isFalse (fun h => JVal.noConfusion h)
  | JVal.null, JVal.num _ => isFalse (fun h => JVal.noConfusion h)
  | JVal.null, JVal.str _ => isFalse (fun h => JVal.noConfusion h)
  | JVal.null, JVal.arr _ => isFalse (fun h => JVal.noConfusion h)
  | JVal.null, JVal.obj _ => isFalse (fun h => JVal.noConfusion h)
  | JVal.bool _, JVal.null => isFalse (fun h => JVal.noConfusion h)
  | JVal.bool _, JVal.num _ => isFalse (fun h => JVal.noConfusion h)
  | JVal.bool _, JVal.str _ => isFalse (fun h => JVal.noConfusion h)
  | JVal.bool _, JVal.arr _ => isFalse (fun h => JVal.noConfusion h)
  | JVal.bool _, JVal.obj _ => isFalse (fun h => JVal.noConfusion h)
  | JVal.num _, JVal.null => isFalse (fun h => JVal.noConfusion h)
  | JVal.num _, JVal.bool _ => isFalse (fun h => JVal.noConfusion h)
  | JVal.num _, JVal.str _ => isFalse (fun h => JVal.noConfusion h)
  | JVal.num _, JVal.arr _ => isFalse (fun h => JVal.noConfusion h)
  | JVal.num _, JVal.obj _ => isFalse (fun h => JVal.noConfusion h)
  | JVal.str _, JVal.null => isFalse (fun h => JVal.noConfusion h)
  | JVal.str _, JVal.bool _ => isFalse (fun h => JVal.noConfusion h)
  | JVal.str _, JVal.num _ => isFalse (fun h => JVal.noConfusion h)
  | JVal.str _, JVal.arr _ => isFalse (fun h => JVal.noConfusion h)
  | JVal.str _, JVal.obj _ => isFalse (fun h => JVal.noConfusion h)
  | JVal.arr _, JVal.null => isFalse (fun h => JVal.noConfusion h)
  | JVal.arr _, JVal.bool _ => isFalse (fun h => JVal.noConfusion h)
  | JVal.arr _, JVal.num _ => isFalse (fun h => JVal.noConfusion h)
  | JVal.arr _, JVal.str _ => isFalse (fun h => JVal.noConfusion h)
  | JVal.arr _, JVal.obj _ => isFalse (fun h => JVal.noConfusion h)
  | JVal.obj _, JVal.null => isFalse (fun h => JVal.noConfusion h)
  | JVal.obj _, JVal.bool _ => isFalse (fun h => JVal.noConfusion h)
  | JVal.obj _, JVal.num _ => isFalse (fun h => JVal.noConfusion h)
  | JVal.obj _, JVal.str _ => isFalse (fun h => JVal.noConfusion h)
  | JVal.obj _, JVal.arr _ => isFalse (fun h => JVal.noConfusion h)

/-- Decidable equality of JSON arrays. -/
def decEqArr : (xs ys : List JVal) → Decidable (xs = ys)
  | [], [] => isTrue rfl
  | [], _ :: _ => isFalse (fun h => List.noConfusion h)
  | _ :: _, [] => isFalse (fun h => List.noConfusion h)
  | x :: xs, y :: ys =>
      match JVal.decEq x y, decEqArr xs ys with
      | isTrue h1, isTrue h2 => isTrue (by rw [h1, h2])
      | isFalse h1, _ => isFalse (fun hh => h1 (List.cons.inj hh).1)
      | _, isFalse h2 => isFalse (fun hh => h2 (List.cons.inj hh).2)

/-- Decidable equality of JSON objects (field order significant, which
is all the embedding needs). -/
def decEqObj : (xs ys : List (String × JVal)) → Decidable (xs = ys)
  | [], [] => isTrue rfl
  | [], _ :: _ => isFalse (fun h => List.noConfusion h)
  | _ :: _, [] => isFalse (fun h => List.noConfusion h)
  | (k1, v1) :: xs, (k2, v2) :: ys =>
      if hk : k1 = k2 then
        match JVal.decEq v1 v2, decEqObj xs ys with
        | isTrue hv, isTrue ht => isTrue (by rw [hk, hv, ht])
        | isFalse hv, _ =>
            isFalse (fun hh => hv (Prod.ext_iff.mp (List.cons.inj hh).1).2)
        | _, isFalse ht => isFalse (fun hh => ht (List.cons.inj hh).2)
      else
        isFalse (fun hh => hk (Prod.ext_iff.mp (List.cons.inj hh).1).1)

end

instance : DecidableEq JVal := JVal.decEq

/-- Assoc-list lookup for JSON objects (first binding wins, as in a
Python dict where keys are unique). -/
def jlookup : List (String × JVal) → String → Option JVal
  | [], _ => none
  | (k, v) :: rest, key => if k = key then some v else jlookup rest key

/-- Python dict .get(key): the value when present, None when absent. -/
def dictGet (kvs : List (String × JVal)) (key : String) : JVal :=
  (jlookup kvs key).getD JVal.null

/-- Python truthiness of a JSON value: None, False, 0, "", [] and
empty dicts are falsey, everything else truthy. -/
def pyTruthy : JVal → Bool
  | JVal.null => false
  | JVal.bool b => b
  | JVal.num n => decide (n ≠ 0)
  | JVal.str s => decide (s ≠ "")
  | JVal.arr xs => decide (xs ≠ [])
  | JVal.obj kvs => decide (kvs ≠ [])

/-- Python type name, used in the text of TypeError messages. -/
def pyTypeName : JVal → String
  | JVal.null => "NoneType"
  | JVal.bool _ => "bool"
  | JVal.num _ => "int"
  | JVal.str _ => "str"
  | JVal.arr _ => "list"
  | JVal.obj _ => "dict"

/-- Python str() of a scalar for f-string interpolation and
str.format; container reprs are abbreviated (no claim depends on
the rendered text of a list or dict). -/
def pyFormat : JVal → String
  | JVal.null => "None"
  | JVal.bool b => if b then "True" else "False"
  | JVal.num n => toString n
  | JVal.str s => s
  | JVal.arr _ => "[list]"
  | JVal.obj _ => "[dict]"

/-- An HTTP response as the requests library delivers it after .json():
a status code and a decoded JSON body. -/
structure HResp where
  status : Nat
  body : JVal
deriving DecidableEq

/-- An HTTP request issued by the front-end. -/
inductive Request where
  | post (url : String) (payload : JVal)
  | get (url : String)
  | put (url : String) (payload : JVal)
  | delete (url : String)
deriving DecidableEq

/-- User-visible output events: streamlit error / success / warning /
info banners, generic writes, and the blog-card / suggestion markup.
An uncaught Python exception is a terminal event of the run. -/
inductive Out where
  | error (v : JVal)
  | success (m : String)
  | warning (m : String)
  | info (m : String)
  | write (v : JVal)
  | subheader (v : JVal)
  | writePoint (v : JVal)
  | cardMain (title userId : JVal) (preview : String)
  | cardNew (thumb : String) (userId title : JVal) (excerpt : String)
  | detailMain (title content createdAt : JVal)
  | detailNew (title userId createdAt content : JVal)
  | exception (m : String)
deriving DecidableEq

/-- Base URL: src/new_ui.py defaults to the local development address
when the environment variable is absent; src/main.py has no default
(the spec flags this divergence, no claim depends on the URL text). -/
def BASE_URL : String := "http://localhost:8000"

/-- Login endpoint. -/
def LOGIN_ENDPOINT : String := BASE_URL ++ "/auth/login"

/-- Registration endpoint. -/
def REGISTER_ENDPOINT : String := BASE_URL ++ "/auth/register"

/-- Blog list endpoint. -/
def BLOG_LIST_ENDPOINT : String := BASE_URL ++ "/blogs/blog-list"

/-- Blog creation endpoint. -/
def BLOG_CREATE_ENDPOINT : String := BASE_URL ++ "/blogs/blog"

/-- Blog detail endpoint, formatted with the blog id. -/
def BLOG_DETAIL_ENDPOINT (id : JVal) : String :=
  BASE_URL ++ "/blogs/blog/" ++ pyFormat id

/-- Topic suggestion endpoint. -/
def SUGGEST_ENDPOINT : String := BASE_URL ++ "/llm/suggest-topics"

/-- The client session: streamlit session_state fields that either
variant reads or writes.  access_token, refresh_token, user,
selected_blog_id and edit_blog hold whatever JSON value was stored
(None when unset, as at process start); page is the current page name;
show_new is the create-form flag; confirm_delete is the set of blog
ids with a pending delete confirmation (per-id flags in main.py, the
confirm_delete dict in new_ui.py - both are a set of ids). -/
structure Session where
  access_token : JVal
  refresh_token : JVal
  user : JVal
  page : String
  selected_blog_id : JVal
  edit_blog : JVal
  show_new : Bool
  confirm_delete : List JVal
deriving DecidableEq

/-- The session as created at process start: every field unset and the
page set to login. -/
def initSession : Session :=
  { access_token := JVal.null
    refresh_token := JVal.null
    user := JVal.null
    page := "login"
    selected_blog_id := JVal.null
    edit_blog := JVal.null
    show_new := false
    confirm_delete := [] }

/-- The logout handler, identical in both variants: clear the three
auth fields, go to the login page (then show a banner and rerun). -/
def logout_session (s : Session) : Session :=
  { s with
      access_token := JVal.null
      refresh_token := JVal.null
      user := JVal.null
      page := "login" }

/-- Mark a blog id as pending deletion (dict/flag assignment: adding an
id already present leaves the set unchanged). -/
def insertPending (l : List JVal) (id : JVal) : List JVal :=
  if id ∈ l then l else l ++ [id]

/-- Clear the pending-delete mark of one blog id (dict pop / flag pop). -/
def removePending (l : List JVal) (id : JVal) : List JVal :=
  l.filter (fun x => decide (x ≠ id))

/-- Login unwrap, both variants: body.get("results") or body - the
results value when truthy, else the whole body. -/
def loginResults (kvs : List (String × JVal)) : JVal :=
  let g := dictGet kvs "results"
  if pyTruthy g then g else JVal.obj kvs

/-- Payload unwrap used by the blog-list, blog-detail and suggestions
callers in both variants: body.get("results") if isinstance(body, dict)
else body.  For a dict body this is the results value - None when the
key is absent - and for any other body the body itself. -/
def unwrap_list (body : JVal) : JVal :=
  match body with
  | JVal.obj kvs => dictGet kvs "results"
  | v => v

/-- The unwrap rule as the spec words it, for comparison with the code:
callers must unwrap results if present, else use the body as-is. -/
def unwrap_spec (body : JVal) : JVal :=
  match body with
  | JVal.obj kvs =>
      match jlookup kvs "results" with
      | some v => v
      | none => JVal.obj kvs
  | v => v

/-- Error text of a failed (non-2xx) response whose body is consulted:
resp.json().get("message") or the fallback with the status in
parentheses; when .json()/.get raises, the except branch shows the
fallback with a colon.  Both variants use this shape for login,
registration, create and update failures. -/
def failMsg (op : String) (r : HResp) : JVal :=
  match r.body with
  | JVal.obj kvs =>
      let m := dictGet kvs "message"
      if pyTruthy m then m
      else JVal.str (op ++ " failed (" ++ toString r.status ++ ")")
  | _ => JVal.str (op ++ " failed: " ++ toString r.status)

/-- The login form handler, identical logic in both variants.  resp is
none when the connection to the backend fails (ConnectionError is
caught).  On HTTP 200/201 the body is unwrapped with loginResults; a
dict result stores its access_token / refresh_token / user entries and
moves to the dashboard; a non-dict result is a format error; a
non-dict body makes body.get raise AttributeError (uncaught).  Any
other status shows the failure message.  State is mutated only in the
dict-result branch. -/
def login_submit (s : Session) (email password : String) (resp : Option HResp) :
    Session × List Request × List Out :=
  let req := Request.post LOGIN_ENDPOINT
    (JVal.obj [("email", JVal.str email), ("password", JVal.str password)])
  match resp with
  | none => (s, [req], [Out.error (JVal.str "Could not connect to backend")])
  | some r =>
    if r.status = 200 ∨ r.status = 201 then
      match r.body with
      | JVal.obj kvs =>
        match loginResults kvs with
        | JVal.obj rkvs =>
            ({ s with
                access_token := dictGet rkvs "access_token"
                refresh_token := dictGet rkvs "refresh_token"
                user := dictGet rkvs "user"
                page := "dashboard" },
             [req], [Out.success "Login successful"])
        | _ => (s, [req], [Out.error (JVal.str "Unexpected login response format")])
      | _ => (s, [req], [Out.exception "AttributeError"])
    else
      (s, [req], [Out.error (failMsg "Login" r)])

/-- The registration form handler: a success banner on 200/201,
the failure message otherwise; no session field is ever written. -/
def register_submit (s : Session) (email password firstName lastName : String)
    (resp : Option HResp) : Session × List Request × List Out :=
  let req := Request.post REGISTER_ENDPOINT
    (JVal.obj [("email", JVal.str email), ("password", JVal.str password),
               ("first_name", JVal.str firstName), ("last_name", JVal.str lastName)])
  match resp with
  | none => (s, [req], [Out.error (JVal.str "Could not connect to backend for registration.")])
  | some r =>
    if r.status = 200 ∨ r.status = 201 then
      (s, [req], [Out.success "Registered successfully - please login."])
    else
      (s, [req], [Out.error (failMsg "Registration" r)])

/-- The create-blog form handler: on 200/201 hide the form and rerun;
otherwise show the failure message and change nothing. -/
def create_submit (s : Session) (title content : String) (resp : HResp) :
    Session × List Request × List Out :=
  let req := Request.post BLOG_CREATE_ENDPOINT
    (JVal.obj [("title", JVal.str title), ("content", JVal.str content)])
  if resp.status = 200 ∨ resp.status = 201 then
    ({ s with show_new := false }, [req], [Out.success "Blog created"])
  else
    (s, [req], [Out.error (failMsg "Create" resp)])

/-- The edit-form save handler: PUT to the detail endpoint of the blog
being edited; on 200/201 go back to the blog list, otherwise show the
failure message and change nothing.  The page is only reachable with a
blog record in hand; a non-dict record would make blog.get raise. -/
def edit_save (s : Session) (title content : String) (resp : HResp) :
    Session × List Request × List Out :=
  match s.edit_blog with
  | JVal.obj kvs =>
      let req := Request.put (BLOG_DETAIL_ENDPOINT (dictGet kvs "id"))
        (JVal.obj [("title", JVal.str title), ("content", JVal.str content)])
      if resp.status = 200 ∨ resp.status = 201 then
        ({ s with page := "blogs" }, [req], [Out.success "Updated successfully"])
      else
        (s, [req], [Out.error (failMsg "Update" resp)])
  | _ => (s, [], [Out.exception "AttributeError"])

/-- The confirm-delete handler (the Confirm Delete button in main.py,
the modal confirm button in new_ui.py): one DELETE call; 200/204 is a
success, anything else an error banner - and on both branches the
pending-delete mark of the id is popped. -/
def confirm_delete_submit (s : Session) (id : JVal) (resp : HResp) :
    Session × List Request × List Out :=
  let req := Request.delete (BLOG_DETAIL_ENDPOINT id)
  if resp.status = 200 ∨ resp.status = 204 then
    ({ s with confirm_delete := removePending s.confirm_delete id }, [req],
      [Out.success "Deleted"])
  else
    ({ s with confirm_delete := removePending s.confirm_delete id }, [req],
      [Out.error (JVal.str ("Delete failed: " ++ toString resp.status))])

/-- Python str.split on a comma: the segments between commas, in
order, an empty segment where two commas touch. -/
def splitCommaAux : List Char → List Char → List (List Char)
  | [], acc => [acc.reverse]
  | c :: rest, acc =>
      if c = ',' then acc.reverse :: splitCommaAux rest []
      else splitCommaAux rest (c :: acc)

/-- Whitespace recognised by Python str.strip. -/
def isSpaceChar (c : Char) : Bool :=
  decide (c = ' ') || decide (c = '\t') || decide (c = '\n') || decide (c = '\r')

/-- Python str.strip: drop whitespace from both ends. -/
def pyStrip (cs : List Char) : List Char :=
  ((cs.dropWhile isSpaceChar).reverse.dropWhile isSpaceChar).reverse

/-- Keyword parsing of the suggestions form: split on commas, strip
each part, keep the non-empty ones. -/
def kwListOf (keywords : String) : List String :=
  ((splitCommaAux keywords.toList []).map (fun cs => String.mk (pyStrip cs))).filter
    (fun k => decide (k ≠ ""))

/-- The string-or-array unwrap of the suggestion payload, both
variants: a string payload is decoded as JSON, falling back to the
string itself when decoding raises; anything else is used unchanged.
The JSON decoder is a parameter: the claims depend only on its result
on the given string, never on its internals. -/
def suggestions_parse (loads : String → Except Unit JVal) (results : JVal) : JVal :=
  match results with
  | JVal.str s =>
      match loads s with
      | Except.ok v => v
      | Except.error _ => JVal.str s
  | v => v

/-- Rendering of one suggestion item: a subheader with item.get("topic")
then one write per point in item.get("points", []).  Iterating a
string yields its characters; iterating any other non-list raises
TypeError after the subheader; a non-dict item makes .get raise. -/
def render_item_outs (item : JVal) : List Out × Bool :=
  match item with
  | JVal.obj kvs =>
      let topic := dictGet kvs "topic"
      match (jlookup kvs "points").getD (JVal.arr []) with
      | JVal.arr ps => (Out.subheader topic :: ps.map (fun p => Out.writePoint p), false)
      | JVal.str cs =>
          (Out.subheader topic ::
            cs.toList.map (fun c => Out.writePoint (JVal.str (String.mk [c]))), false)
      | _ => ([Out.subheader topic, Out.exception "TypeError"], true)
  | _ => ([Out.exception "AttributeError"], true)

/-- Rendering of a list of suggestion items, stopping at the first
raised exception. -/
def render_items : List JVal → List Out
  | [] => []
  | item :: rest =>
      match render_item_outs item with
      | (outs, true) => outs
      | (outs, false) => outs ++ render_items rest

/-- Rendering of the parsed suggestion payload: item-by-item when it is
a list, st.write(parsed) otherwise. -/
def render_suggestions (parsed : JVal) : List Out :=
  match parsed with
  | JVal.arr items => render_items items
  | v => [Out.write v]

/-- The Suggest Topics button handler, identical in both variants:
empty keyword list is a local error with no call; on HTTP 200 the body
is unwrapped, string-decoded if needed and rendered; any other status
is an error banner.  No session field is ever written. -/
def suggestions_submit (s : Session) (loads : String → Except Unit JVal)
    (keywords : String) (resp : HResp) : Session × List Request × List Out :=
  let kws := kwListOf keywords
  if kws = [] then (s, [], [Out.error (JVal.str "Add at least one keyword")])
  else
    let req := Request.post SUGGEST_ENDPOINT
      (JVal.obj [("topics", JVal.arr (kws.map (fun k => JVal.str k)))])
    if resp.status = 200 then
      (s, [req], render_suggestions (suggestions_parse loads (unwrap_list resp.body)))
    else
      (s, [req], [Out.error (JVal.str ("Suggestion API failed: " ++ toString resp.status))])

/-- The ellipsis appended by the first variant. -/
def ellipsisChars : List Char := String.toList "..."

/-- The list-card preview of src/main.py, line 207: the first 150
characters of the body, with an ellipsis appended exactly when the body
is longer than 150 characters. -/
def preview_main (content : List Char) : List Char :=
  content.take 150 ++ (if 150 < content.length then ellipsisChars else [])

/-- One blog card of the first variant: title, author and the body
preview.  blog.get("content")[:150] slices a string or a list (a list
renders as the repr of its first 150 items, with the ellipsis when
longer); subscripting None, a bool or a number raises TypeError, a
dict rejects the slice key, and .get raises on a non-dict record. -/
def render_card_main (blog : JVal) : Except String Out :=
  match blog with
  | JVal.obj kvs =>
      match dictGet kvs "content" with
      | JVal.str c =>
          Except.ok (Out.cardMain (dictGet kvs "title") (dictGet kvs "user_id")
            (String.mk (preview_main c.toList)))
      | JVal.arr xs =>
          Except.ok (Out.cardMain (dictGet kvs "title") (dictGet kvs "user_id")
            (pyFormat (JVal.arr (xs.take 150)) ++
              (if 150 < xs.length then "..." else "")))
      | JVal.obj _ => Except.error "TypeError: unhashable type slice"
      | v => Except.error ("TypeError: " ++ pyTypeName v ++ " object is not subscriptable")
  | _ => Except.error "AttributeError"

/-- Python slicing v[:n] - defined on strings, TypeError otherwise. -/
def pySliceStr (v : JVal) (n : Nat) : Except String String :=
  match v with
  | JVal.str s => Except.ok (String.mk (s.toList.take n))
  | v => Except.error ("TypeError: " ++ pyTypeName v ++ " object is not subscriptable")

/-- The Python expression v | len: the bitwise-or operator applied to a
value and the len builtin.  No Python type implements | with a
builtin function as the right operand, so every case raises
TypeError naming the left operand type. -/
def pyBitOrLen (v : JVal) : Except String JVal :=
  Except.error ("TypeError: unsupported operand type(s) for |: " ++ pyTypeName v ++
    " and builtin_function_or_method")

/-- Python comparison v > n against an int literal. -/
def pyGtLit (v : JVal) (n : Int) : Except String Bool :=
  match v with
  | JVal.num m => Except.ok (decide (n < m))
  | JVal.bool b => Except.ok (decide (n < (if b then (1 : Int) else 0)))
  | v => Except.error ("TypeError: unorderable " ++ pyTypeName v)

/-- The card-excerpt fragment of src/new_ui.py, line 363, evaluated
left to right as the f-string does:
(blog.get("content") or "")[:160] first, then the conditional whose
test parses as ((blog.get("content") or "") | len) > 160 - the
comparison binds looser than |, so the bitwise-or of the content and
the len builtin is evaluated and raises TypeError. -/
def card_excerpt_new_ui (content : JVal) : Except String String :=
  let c := if pyTruthy content then content else JVal.str ""
  match pySliceStr c 160 with
  | Except.error e => Except.error e
  | Except.ok pre =>
    match pyBitOrLen c with
    | Except.error e => Except.error e
    | Except.ok lv =>
      match pyGtLit lv 160 with
      | Except.error e => Except.error e
      | Except.ok gt => Except.ok (pre ++ (if gt then "..." else ""))

/-- HTML-escaping used by the placeholder cover of the second variant. -/
def htmlEscape (s : String) : String :=
  ((s.replace "&" "&amp;").replace "<" "&lt;").replace ">" "&gt;"

/-- placeholder_image_data_url of src/new_ui.py: an inline SVG data URL
carrying the escaped title text (the fixed SVG wrapper text is
abbreviated); .replace raises on a truthy non-string argument. -/
def placeholder_image_data_url (text : JVal) : Except String String :=
  match (if pyTruthy text then text else JVal.str "cover") with
  | JVal.str s => Except.ok ("data:image/svg+xml;utf8,svg " ++ htmlEscape s)
  | v => Except.error ("AttributeError: " ++ pyTypeName v ++ " has no attribute replace")

/-- One blog card of the second variant, evaluated in source order:
the thumbnail (thumbnail_url or the placeholder), then the card markup
whose excerpt fragment is card_excerpt_new_ui. -/
def render_card_new (blog : JVal) : Except String Out :=
  match blog with
  | JVal.obj kvs =>
      match (if pyTruthy (dictGet kvs "thumbnail_url") then
              Except.ok (pyFormat (dictGet kvs "thumbnail_url"))
            else placeholder_image_data_url (dictGet kvs "title")) with
      | Except.error e => Except.error e
      | Except.ok thumb =>
          match card_excerpt_new_ui (dictGet kvs "content") with
          | Except.error e => Except.error e
          | Except.ok ex =>
              Except.ok (Out.cardNew thumb (dictGet kvs "user_id") (dictGet kvs "title") ex)
  | _ => Except.error "AttributeError"

/-- The card loop of the first variant: cards in order, stopping at the
first raised exception. -/
def render_cards_main : List JVal → List Out
  | [] => []
  | b :: rest =>
      match render_card_main b with
      | Except.ok o => o :: render_cards_main rest
      | Except.error e => [Out.exception e]

/-- The card loop of the second variant. -/
def render_cards_new : List JVal → List Out
  | [] => []
  | b :: rest =>
      match render_card_new b with
      | Except.ok o => o :: render_cards_new rest
      | Except.error e => [Out.exception e]

/-- An entry run of the blogs page of src/main.py with no widget event:
one GET of the blog list; non-200 is an error banner; a falsey payload
is the empty-state banner; a list payload renders the cards; iterating
any other truthy payload raises. -/
def blogs_entry_main (s : Session) (net : Request → HResp) :
    Session × List Request × List Out :=
  let req := Request.get BLOG_LIST_ENDPOINT
  let r := net req
  if r.status ≠ 200 then
    (s, [req], [Out.error (JVal.str ("Could not fetch blogs: " ++ toString r.status))])
  else
    let results := unwrap_list r.body
    if pyTruthy results = false then (s, [req], [Out.info "No blogs yet."])
    else
      match results with
      | JVal.arr blogs => (s, [req], render_cards_main blogs)
      | _ => (s, [req], [Out.exception "TypeError: not iterable"])

/-- An entry run of the blogs page of src/new_ui.py with no widget
event: fetch_blogs_with_loading issues the GET and unwraps; then the
same empty-state / card-loop structure with the second-variant cards. -/
def blogs_entry_new (s : Session) (net : Request → HResp) :
    Session × List Request × List Out :=
  let req := Request.get BLOG_LIST_ENDPOINT
  let r := net req
  if r.status ≠ 200 then
    (s, [req], [Out.error (JVal.str ("Could not fetch blogs: " ++ toString r.status))])
  else
    let results := unwrap_list r.body
    if pyTruthy results = false then (s, [req], [Out.info "No blogs yet."])
    else
      match results with
      | JVal.arr blogs => (s, [req], render_cards_new blogs)
      | _ => (s, [req], [Out.exception "TypeError: not iterable"])

/-- Detail rendering of the first variant. -/
def render_detail_main (blog : JVal) : List Out :=
  match blog with
  | JVal.obj kvs =>
      [Out.detailMain (dictGet kvs "title") (dictGet kvs "content")
        (dictGet kvs "created_at")]
  | _ => [Out.exception "AttributeError"]

/-- Detail rendering of the second variant. -/
def render_detail_new (blog : JVal) : List Out :=
  match blog with
  | JVal.obj kvs =>
      [Out.detailNew (dictGet kvs "title") (dictGet kvs "user_id")
        (dictGet kvs "created_at") (dictGet kvs "content")]
  | _ => [Out.exception "AttributeError"]

/-- An entry run of the blog-detail page of src/main.py: with no
selected id, an error and a redirect to the blog list with no call;
otherwise one GET, rendered on 200, an error banner otherwise. -/
def blog_detail_entry_main (s : Session) (net : Request → HResp) :
    Session × List Request × List Out :=
  if pyTruthy s.selected_blog_id = false then
    ({ s with page := "blogs" }, [], [Out.error (JVal.str "No blog selected.")])
  else
    let req := Request.get (BLOG_DETAIL_ENDPOINT s.selected_blog_id)
    let r := net req
    if r.status = 200 then
      (s, [req], render_detail_main (unwrap_list r.body))
    else
      (s, [req], [Out.error (JVal.str ("Failed to load blog: " ++ toString r.status))])

/-- An entry run of the blog-detail page of src/new_ui.py. -/
def blog_detail_entry_new (s : Session) (net : Request → HResp) :
    Session × List Request × List Out :=
  if pyTruthy s.selected_blog_id = false then
    ({ s with page := "blogs" }, [], [Out.error (JVal.str "No blog selected.")])
  else
    let req := Request.get (BLOG_DETAIL_ENDPOINT s.selected_blog_id)
    let r := net req
    if r.status = 200 then
      (s, [req], render_detail_new (unwrap_list r.body))
    else
      (s, [req], [Out.error (JVal.str ("Failed to load blog: " ++ toString r.status))])

/-- An entry run of the edit-blog page, identical in both variants:
with no blog in hand, an error and a redirect to the blog list; with a
dict record the form is rendered - no call and no state change until
the form is submitted; a truthy non-dict record makes blog.get raise
AttributeError while rendering the form (still no call, no state
change). -/
def edit_blog_entry (s : Session) : Session × List Request × List Out :=
  if pyTruthy s.edit_blog = false then
    ({ s with page := "blogs" }, [], [Out.error (JVal.str "No blog selected for editing.")])
  else
    match s.edit_blog with
    | JVal.obj _ => (s, [], [])
    | _ => (s, [], [Out.exception "AttributeError"])

/-- A run of either variant: the session after the run, the HTTP
requests issued during it, and the output events shown. -/
structure RunResult where
  session : Session
  requests : List Request
  outs : List Out
deriving DecidableEq

/-- Packaging of a handler triple as a RunResult. -/
def mkRun : Session × List Request × List Out → RunResult
  | (s, reqs, outs) => ⟨s, reqs, outs⟩

/-- The module-level page dispatch of src/new_ui.py, lines 521-549, for
an entry run (no widget event): dashboard, blogs, blog_detail and
suggestions each first check the access token, and without one warn,
set the page to login and rerun (ending the run before any call);
edit_blog is dispatched with no token check; login and unknown pages
render directly. -/
def dispatch_new_ui (s : Session) (net : Request → HResp) : RunResult :=
  if s.page = "login" then ⟨s, [], []⟩
  else if s.page = "dashboard" then
    if pyTruthy s.access_token = false then
      ⟨{ s with page := "login" }, [], [Out.warning "Please login first"]⟩
    else ⟨s, [], []⟩
  else if s.page = "blogs" then
    if pyTruthy s.access_token = false then
      ⟨{ s with page := "login" }, [], [Out.warning "Please login first"]⟩
    else mkRun (blogs_entry_new s net)
  else if s.page = "blog_detail" then
    if pyTruthy s.access_token = false then
      ⟨{ s with page := "login" }, [], [Out.warning "Please login first"]⟩
    else mkRun (blog_detail_entry_new s net)
  else if s.page = "edit_blog" then mkRun (edit_blog_entry s)
  else if s.page = "suggestions" then
    if pyTruthy s.access_token = false then
      ⟨{ s with page := "login" }, [], [Out.warning "Please login first"]⟩
    else ⟨s, [], []⟩
  else ⟨s, [], []⟩

/-- The sidebar of src/main.py, lines 348-360, for an entry run: with a
token, the radio keeps the current page when it is a detail/edit page
or already one of the sidebar pages, else falls back to the dashboard;
without a token the only radio option is login, so the page is forced
to login before dispatch. -/
def sidebar_force_main (s : Session) : Session :=
  if pyTruthy s.access_token then
    if s.page = "blog_detail" ∨ s.page = "edit_blog" then s
    else if s.page = "dashboard" ∨ s.page = "blogs" ∨ s.page = "suggestions" then s
    else { s with page := "dashboard" }
  else { s with page := "login" }

/-- run_app of src/main.py, lines 340-384, for an entry run: the
sidebar force, then the page dispatch; the blogs and suggestions
branches re-check the token (warn, set login, rerun), the other
branches do not. -/
def run_app_main (s : Session) (net : Request → HResp) : RunResult :=
  let s1 := sidebar_force_main s
  if s1.page = "login" then ⟨s1, [], []⟩
  else if s1.page = "dashboard" then ⟨s1, [], []⟩
  else if s1.page = "blogs" then
    if pyTruthy s1.access_token = false then
      ⟨{ s1 with page := "login" }, [], [Out.warning "Please login first"]⟩
    else mkRun (blogs_entry_main s1 net)
  else if s1.page = "blog_detail" then mkRun (blog_detail_entry_main s1 net)
  else if s1.page = "edit_blog" then mkRun (edit_blog_entry s1)
  else if s1.page = "suggestions" then
    if pyTruthy s1.access_token = false then
      ⟨{ s1 with page := "login" }, [], [Out.warning "Please login first"]⟩
    else ⟨s1, [], []⟩
  else ⟨s1, [], []⟩

/-- The widget actions a user can fire, as the source handles them:
the handler block attached to each button or form of the blogs, edit
and dashboard pages. -/
inductive UAction where
  | viewClick (id : JVal)
  | editClick (blog : JVal)
  | newBlogClick
  | createSubmit (title content : String) (resp : HResp)
  | deleteClick (id : JVal)
  | confirmDeleteClick (id : JVal) (resp : HResp)
  | cancelDeleteClick (id : JVal)
  | editSave (title content : String) (resp : HResp)
  | logoutClick
deriving DecidableEq

/-- The handler of each widget action, from the source of both
variants (the cancel button exists only in new_ui.py; every other
handler is the same in both): View and Edit navigate and stash the
selection; New Blog opens the form; Delete only marks the id pending;
Confirm Delete calls confirm_delete_submit; Cancel pops the mark with
no call; Save calls edit_save; Logout calls logout_session. -/
def step (s : Session) (a : UAction) : Session × List Request × List Out :=
  match a with
  | UAction.viewClick id =>
      ({ s with selected_blog_id := id, page := "blog_detail" }, [], [])
  | UAction.editClick blog =>
      ({ s with edit_blog := blog, page := "edit_blog" }, [], [])
  | UAction.newBlogClick => ({ s with show_new := true }, [], [])
  | UAction.createSubmit t c r => create_submit s t c r
  | UAction.deleteClick id =>
      ({ s with confirm_delete := insertPending s.confirm_delete id }, [], [])
  | UAction.confirmDeleteClick id r => confirm_delete_submit s id r
  | UAction.cancelDeleteClick id =>
      ({ s with confirm_delete := removePending s.confirm_delete id }, [], [])
  | UAction.editSave t c r => edit_save s t c r
  | UAction.logoutClick => (logout_session s, [], [Out.success "Logged out"])

/-- A concrete JSON decoder used by witness theorems: accepts exactly
the text of the empty array. -/
def loadsEmptyArr : String → Except Unit JVal :=
  fun t => if t = "[]" then Except.ok (JVal.arr []) else Except.error ()

/-- A concrete backend oracle used by closed theorems: every request
gets a 200 with a null body. -/
def netNull : Request → HResp := fun _ => ⟨200, JVal.null⟩

/-- A concrete blog record used by closed theorems. -/
def exBlog : JVal :=
  JVal.obj [("id", JVal.num 1), ("title", JVal.str "t"), ("content", JVal.str "c")]

/-- The login response of the worked example in the spec: a 201 whose
results object carries the two tokens and the user record. -/
def loginRespEx : HResp :=
  ⟨201, JVal.obj [("results", JVal.obj
    [("access_token", JVal.str "T"), ("refresh_token", JVal.str "R"),
     ("user", JVal.obj [("email", JVal.str "a@b.com")])])]⟩

/-- A create-blog attempt including the connection layer.  Only the
login and registration handlers catch ConnectionError; here the
api_post call is not wrapped in a try, so a failed connection (resp
none) propagates out of the handler as an uncaught exception before
any branch of the handler body runs - no session field is written.
With a response the handler body runs as create_submit. -/
def create_attempt (s : Session) (title content : String) (resp : Option HResp) :
    Session × List Request × List Out :=
  match resp with
  | none =>
      (s, [Request.post BLOG_CREATE_ENDPOINT
            (JVal.obj [("title", JVal.str title), ("content", JVal.str content)])],
       [Out.exception "ConnectionError"])
  | some r => create_submit s title content r

/-- A blog-list fetch attempt of the first variant including the
connection layer: an uncaught ConnectionError from api_get ends the
run with the session untouched; with a response the entry body runs. -/
def blogs_attempt_main (s : Session) (resp : Option HResp) :
    Session × List Request × List Out :=
  match resp with
  | none => (s, [Request.get BLOG_LIST_ENDPOINT], [Out.exception "ConnectionError"])
  | some r => blogs_entry_main s (fun _ => r)

/-- A blog-list fetch attempt of the second variant including the
connection layer. -/
def blogs_attempt_new (s : Session) (resp : Option HResp) :
    Session × List Request × List Out :=
  match resp with
  | none => (s, [Request.get BLOG_LIST_ENDPOINT], [Out.exception "ConnectionError"])
  | some r => blogs_entry_new s (fun _ => r)

/-- A blog-detail fetch attempt of the first variant including the
connection layer: with no selected id the request is never issued, so
there is nothing to fail; otherwise an uncaught ConnectionError ends
the run with the session untouched. -/
def blog_detail_attempt_main (s : Session) (resp : Option HResp) :
    Session × List Request × List Out :=
  if pyTruthy s.selected_blog_id = false then
    ({ s with page := "blogs" }, [], [Out.error (JVal.str "No blog selected.")])
  else
    match resp with
    | none =>
        (s, [Request.get (BLOG_DETAIL_ENDPOINT s.selected_blog_id)],
         [Out.exception "ConnectionError"])
    | some r => blog_detail_entry_main s (fun _ => r)

/-- A blog-detail fetch attempt of the second variant including the
connection layer. -/
def blog_detail_attempt_new (s : Session) (resp : Option HResp) :
    Session × List Request × List Out :=
  if pyTruthy s.selected_blog_id = false then
    ({ s with page := "blogs" }, [], [Out.error (JVal.str "No blog selected.")])
  else
    match resp with
    | none =>
        (s, [Request.get (BLOG_DETAIL_ENDPOINT s.selected_blog_id)],
         [Out.exception "ConnectionError"])
    | some r => blog_detail_entry_new s (fun _ => r)

/-- An edit-save attempt including the connection layer: blog.get("id")
is evaluated before the api_put call (raising on a non-dict record);
an uncaught ConnectionError from api_put ends the run before the
status branches, leaving the session untouched. -/
def edit_save_attempt (s : Session) (title content : String) (resp : Option HResp) :
    Session × List Request × List Out :=
  match resp with
  | none =>
      match s.edit_blog with
      | JVal.obj kvs =>
          (s, [Request.put (BLOG_DETAIL_ENDPOINT (dictGet kvs "id"))
                (JVal.obj [("title", JVal.str title), ("content", JVal.str content)])],
           [Out.exception "ConnectionError"])
      | _ => (s, [], [Out.exception "AttributeError"])
  | some r => edit_save s title content r

/-- A suggestions attempt including the connection layer: an empty
keyword list returns before any call is made; otherwise an uncaught
ConnectionError from api_post ends the run with the session
untouched. -/
def suggestions_attempt (s : Session) (loads : String → Except Unit JVal)
    (keywords : String) (resp : Option HResp) : Session × List Request × List Out :=
  match resp with
  | none =>
      if kwListOf keywords = [] then
        (s, [], [Out.error (JVal.str "Add at least one keyword")])
      else
        (s, [Request.post SUGGEST_ENDPOINT
              (JVal.obj [("topics", JVal.arr ((kwListOf keywords).map (fun k => JVal.str k)))])],
         [Out.exception "ConnectionError"])
  | some r => suggestions_submit s loads keywords r

/-- A delete-confirmation attempt including the connection layer: when
the DELETE call itself fails to connect, the uncaught ConnectionError
propagates out of the handler before either status branch - and so
before the pending-mark pop - is reached, leaving the session, the
pending-delete set included, unchanged.  With a response the handler
body runs as confirm_delete_submit. -/
def confirm_delete_attempt (s : Session) (id : JVal) (resp : Option HResp) :
    Session × List Request × List Out :=
  match resp with
  | none =>
      (s, [Request.delete (BLOG_DETAIL_ENDPOINT id)], [Out.exception "ConnectionError"])
  | some r => confirm_delete_submit s id r

/-- C3: for every prior session state, invoking logout sets the access
token, refresh token and user back to their initial empty values and
sets the current page to Login. -/
theorem logout_resets_session (s : Session) :
    (logout_session s).access_token = initSession.access_token ∧
    (logout_session s).refresh_token = initSession.refresh_token ∧
    (logout_session s).user = initSession.user ∧
    (logout_session s).page = "login" :=
  ⟨rfl, rfl, rfl, rfl⟩

/-- C9: logout changes only the four session fields; the transient
navigation state - selected blog id, editing blog record, the
show-new-form flag and the pending delete confirmations - holds the
same values after logout as before it. -/
theorem logout_frame (s : Session) :
    (logout_session s).selected_blog_id = s.selected_blog_id ∧
    (logout_session s).edit_blog = s.edit_blog ∧
    (logout_session s).show_new = s.show_new ∧
    (logout_session s).confirm_delete = s.confirm_delete ∧
    logout_session s =
      { s with access_token := JVal.null, refresh_token := JVal.null,
               user := JVal.null, page := "login" } :=
  ⟨rfl, rfl, rfl, rfl, rfl⟩

/-- C10: the claim says the second variant's excerpt expression is
total on records whose content is a string or absent; in fact the
expression (content or "") | len raises TypeError on every such
record, because the comparison binds looser than the bitwise or. -/
theorem excerpt_new_ui_raises (s : String) :
    card_excerpt_new_ui (JVal.str s) =
      Except.error
        "TypeError: unsupported operand type(s) for |: str and builtin_function_or_method" ∧
    card_excerpt_new_ui JVal.null =
      Except.error
        "TypeError: unsupported operand type(s) for |: str and builtin_function_or_method" := by
  constructor
  · by_cases h : pyTruthy (JVal.str s) = true <;>
      simp [card_excerpt_new_ui, h, pySliceStr, pyBitOrLen, pyTypeName]
  · rfl

/-- C5: in the first variant the list preview is the first 150
characters with an ellipsis appended exactly when the body is strictly
longer, and a body of exactly 150 characters is shown unmodified; in
the second variant the excerpt expression raises TypeError instead of
producing the documented 160-character preview. -/
theorem preview_truncation_boundary (content : List Char) :
    (content.length ≤ 150 → preview_main content = content) ∧
    (150 < content.length →
      preview_main content = content.take 150 ++ ellipsisChars) ∧
    card_excerpt_new_ui (JVal.str (String.mk content)) =
      Except.error
        "TypeError: unsupported operand type(s) for |: str and builtin_function_or_method" := by
  refine ⟨fun h => ?_, fun h => ?_, ?_⟩
  · simp [preview_main, Nat.not_lt.mpr h, List.take_of_length_le h]
  · simp [preview_main, h]
  · by_cases h : pyTruthy (JVal.str (String.mk content)) = true <;>
      simp [card_excerpt_new_ui, h, pySliceStr, pyBitOrLen, pyTypeName]

/-- Witness for C5: a 150-character body is unchanged, a 151-character
body is truncated with the ellipsis. -/
theorem preview_truncation_boundary_witness :
    preview_main (List.replicate 150 'a') = List.replicate 150 'a' ∧
    preview_main (List.replicate 151 'a') =
      (List.replicate 151 'a').take 150 ++ ellipsisChars :=
  ⟨(preview_truncation_boundary (List.replicate 150 'a')).1 (by simp),
   (preview_truncation_boundary (List.replicate 151 'a')).2.1 (by simp)⟩

/-- C6 counterexample: for the blog-list caller a dict body without a
results key yields None, not the body itself as the claim states; and
for the login caller a present-but-falsey results value yields the
whole body, not the value under the key. -/
theorem unwrap_results_counterexample :
    unwrap_list (JVal.obj [("foo", JVal.num 1)]) = JVal.null ∧
    unwrap_spec (JVal.obj [("foo", JVal.num 1)]) = JVal.obj [("foo", JVal.num 1)] ∧
    JVal.null ≠ JVal.obj [("foo", JVal.num 1)] ∧
    loginResults [("results", JVal.obj [])] = JVal.obj [("results", JVal.obj [])] ∧
    unwrap_spec (JVal.obj [("results", JVal.obj [])]) = JVal.obj [] ∧
    JVal.obj [("results", JVal.obj [])] ≠ JVal.obj [] := by
  refine ⟨rfl, rfl, by decide, rfl, rfl, by decide⟩

/-- C6 amended: the list / detail / suggestions callers take the value
under results for every dict body - None when the key is absent - and
the body itself for non-dict bodies; the login caller takes the
results value only when it is truthy, else the whole body; the spec's
unwrap rule agrees with both exactly on the cases where the key is
present and truthy, or the body is not a dict. -/
theorem unwrap_results_amended (kvs : List (String × JVal)) (v : JVal) :
    (jlookup kvs "results" = some v → unwrap_list (JVal.obj kvs) = v) ∧
    (jlookup kvs "results" = none → unwrap_list (JVal.obj kvs) = JVal.null) ∧
    (jlookup kvs "results" = some v → pyTruthy v = true → loginResults kvs = v) ∧
    (jlookup kvs "results" = some v → pyTruthy v = false →
      loginResults kvs = JVal.obj kvs) ∧
    (∀ t : String, unwrap_list (JVal.str t) = JVal.str t ∧
      unwrap_spec (JVal.str t) = JVal.str t) ∧
    (∀ xs : List JVal, unwrap_list (JVal.arr xs) = JVal.arr xs ∧
      unwrap_spec (JVal.arr xs) = JVal.arr xs) ∧
    (jlookup kvs "results" = some v → pyTruthy v = true →
      unwrap_list (JVal.obj kvs) = unwrap_spec (JVal.obj kvs) ∧
      loginResults kvs = unwrap_spec (JVal.obj kvs)) := by
  refine ⟨fun h => ?_, fun h => ?_, fun h ht => ?_, fun h ht => ?_,
    fun t => ⟨rfl, rfl⟩, fun xs => ⟨rfl, rfl⟩, fun h ht => ?_⟩
  · simp [unwrap_list, dictGet, h]
  · simp [unwrap_list, dictGet, h]
  · simp [loginResults, dictGet, h, ht]
  · simp [loginResults, dictGet, h, ht]
  · constructor
    · simp [unwrap_list, unwrap_spec, dictGet, h]
    · simp [loginResults, unwrap_spec, dictGet, h, ht]

/-- Witness for C6: the amended rule evaluated on a wrapped body. -/
theorem unwrap_results_amended_witness :
    unwrap_list (JVal.obj [("results", JVal.num 2)]) = JVal.num 2 ∧
    loginResults [("results", JVal.num 2)] = JVal.num 2 := by
  have h := unwrap_results_amended [("results", JVal.num 2)] (JVal.num 2)
  exact ⟨h.1 rfl, h.2.2.1 rfl rfl⟩

/-- C7: a suggestion payload delivered as a native JSON array and the
same payload delivered as a JSON-encoded string of that array parse to
the same value and render identically - also through the full
suggestions handler - and a string that fails to decode is used
unchanged. -/
theorem suggestions_string_vs_array (loads : String → Except Unit JVal)
    (t : String) (xs : List JVal) (h : loads t = Except.ok (JVal.arr xs)) :
    suggestions_parse loads (JVal.str t) = suggestions_parse loads (JVal.arr xs) ∧
    render_suggestions (suggestions_parse loads (JVal.str t)) =
      render_suggestions (suggestions_parse loads (JVal.arr xs)) ∧
    (∀ sess kw, (suggestions_submit sess loads kw ⟨200, JVal.str t⟩).2.2 =
      (suggestions_submit sess loads kw ⟨200, JVal.arr xs⟩).2.2) ∧
    (∀ u e, loads u = Except.error e →
      suggestions_parse loads (JVal.str u) = JVal.str u) := by
  have h1 : suggestions_parse loads (JVal.str t) = JVal.arr xs := by
    simp [suggestions_parse, h]
  have h2 : suggestions_parse loads (JVal.arr xs) = JVal.arr xs := rfl
  refine ⟨by rw [h1, h2], by rw [h1, h2], fun sess kw => ?_, fun u e he => ?_⟩
  · by_cases hk : kwListOf kw = [] <;>
      simp [suggestions_submit, hk, unwrap_list, h1, h2]
  · simp [suggestions_parse, he]

/-- Witness for C7: the empty array delivered as the text of the empty
array and as the array itself. -/
theorem suggestions_string_vs_array_witness :
    suggestions_parse loadsEmptyArr (JVal.str "[]") =
      suggestions_parse loadsEmptyArr (JVal.arr []) ∧
    (suggestions_submit initSession loadsEmptyArr "python" ⟨200, JVal.str "[]"⟩).2.2 =
      (suggestions_submit initSession loadsEmptyArr "python" ⟨200, JVal.arr []⟩).2.2 := by
  have h := suggestions_string_vs_array loadsEmptyArr "[]" [] rfl
  exact ⟨h.1, h.2.2.1 initSession "python"⟩

/-- C4: the first delete action only marks the blog id pending and
issues no call; the confirm action issues exactly one DELETE call to
that blog; the cancel action clears the mark with no call; and no
widget action other than confirm or cancel on that id removes a
pending mark. -/
theorem delete_two_step (s : Session) (id : JVal) :
    step s (UAction.deleteClick id) =
      ({ s with confirm_delete := insertPending s.confirm_delete id }, [], []) ∧
    id ∈ insertPending s.confirm_delete id ∧
    (∀ r, (step s (UAction.confirmDeleteClick id r)).2.1 =
      [Request.delete (BLOG_DETAIL_ENDPOINT id)]) ∧
    step s (UAction.cancelDeleteClick id) =
      ({ s with confirm_delete := removePending s.confirm_delete id }, [], []) ∧
    id ∉ removePending s.confirm_delete id ∧
    (∀ a : UAction, id ∈ s.confirm_delete →
      (∀ r, a ≠ UAction.confirmDeleteClick id r) →
      a ≠ UAction.cancelDeleteClick id →
      id ∈ (step s a).1.confirm_delete) := by
  refine ⟨rfl, ?_, fun r => ?_, rfl, ?_, fun a hmem hconf hcanc => ?_⟩
  · by_cases hm : id ∈ s.confirm_delete <;> simp [insertPending, hm]
  · by_cases hr : (r.status = 200 ∨ r.status = 204) <;>
      simp [step, confirm_delete_submit, hr]
  · simp [removePending, List.mem_filter]
  · cases a with
    | viewClick id2 => simpa [step] using hmem
    | editClick blog => simpa [step] using hmem
    | newBlogClick => simpa [step] using hmem
    | createSubmit t c r =>
        by_cases hr : (r.status = 200 ∨ r.status = 201) <;>
          simpa [step, create_submit, hr] using hmem
    | deleteClick id2 =>
        by_cases hm : id2 ∈ s.confirm_delete <;>
          simp [step, insertPending, hm, List.mem_append, hmem]
    | confirmDeleteClick id2 r =>
        have hne : id ≠ id2 := by
          intro he
          exact hconf r (by rw [he])
        by_cases hr : (r.status = 200 ∨ r.status = 204) <;>
          simp [step, confirm_delete_submit, hr, removePending, List.mem_filter,
            hmem, hne]
    | cancelDeleteClick id2 =>
        have hne : id ≠ id2 := by
          intro he
          exact hcanc (by rw [he])
        simp [step, removePending, List.mem_filter, hmem, hne]
    | editSave t c r =>
        cases hb : s.edit_blog <;>
          first
            | simpa [step, edit_save, hb] using hmem
            | (by_cases hr : (r.status = 200 ∨ r.status = 201) <;>
                simpa [step, edit_save, hb, hr] using hmem)
    | logoutClick => simpa [step, logout_session] using hmem

/-- Witness for C4: with ids 1 and 2 pending, a view click keeps 1
pending and a confirm click on id 1 issues its single DELETE. -/
theorem delete_two_step_witness :
    JVal.num 1 ∈
      insertPending
        ({ initSession with confirm_delete := [JVal.num 1, JVal.num 2] } : Session).confirm_delete
        (JVal.num 1) ∧
    JVal.num 1 ∈
      (step { initSession with confirm_delete := [JVal.num 1, JVal.num 2] }
        (UAction.viewClick (JVal.num 3))).1.confirm_delete ∧
    (step { initSession with confirm_delete := [JVal.num 1, JVal.num 2] }
        (UAction.confirmDeleteClick (JVal.num 1) ⟨200, JVal.null⟩)).2.1 =
      [Request.delete (BLOG_DETAIL_ENDPOINT (JVal.num 1))] := by
  have h := delete_two_step
    { initSession with confirm_delete := [JVal.num 1, JVal.num 2] } (JVal.num 1)
  refine ⟨h.2.1, ?_, h.2.2.1 ⟨200, JVal.null⟩⟩
  exact h.2.2.2.2.2 (UAction.viewClick (JVal.num 3)) (by decide)
    (fun r hh => UAction.noConfusion hh) (fun hh => UAction.noConfusion hh)

/-- C8 counterexample: a delete confirmation answered with a 404 shows
the error but also clears that blog's pending-delete mark, so the
pending-delete set does not hold the same value after the failed
action as before it. -/
theorem failed_delete_clears_pending_counterexample :
    ({ initSession with confirm_delete := [JVal.num 1] } : Session).confirm_delete =
      [JVal.num 1] ∧
    (confirm_delete_submit { initSession with confirm_delete := [JVal.num 1] }
        (JVal.num 1) ⟨404, JVal.null⟩).1.confirm_delete = [] ∧
    (confirm_delete_submit { initSession with confirm_delete := [JVal.num 1] }
        (JVal.num 1) ⟨404, JVal.null⟩).2.2 =
      [Out.error (JVal.str "Delete failed: 404")] := by
  refine ⟨rfl, by decide, by decide⟩

/-- C8 amended: every operation that receives a non-2xx response shows
an error and leaves the session fields and current page unchanged; the
pending-delete set is also unchanged, except that a delete
confirmation answered with a non-2xx response clears that blog's
pending mark.  A connection failure leaves all state unchanged - the
pending-delete marks included, since the uncaught exception propagates
before the pop - and is surfaced as a caught error banner for login
and registration and as an uncaught exception for every other
operation. -/
theorem failed_ops_leave_state (s : Session) :
    (∀ e p r, r.status ≠ 200 → r.status ≠ 201 →
      (login_submit s e p (some r)).1 = s ∧
      (login_submit s e p (some r)).2.2 = [Out.error (failMsg "Login" r)]) ∧
    (∀ e p, (login_submit s e p none).1 = s ∧
      (login_submit s e p none).2.2 =
        [Out.error (JVal.str "Could not connect to backend")]) ∧
    (∀ e p f l r, (register_submit s e p f l (some r)).1 = s ∧
      (r.status ≠ 200 → r.status ≠ 201 →
        (register_submit s e p f l (some r)).2.2 =
          [Out.error (failMsg "Registration" r)])) ∧
    (∀ e p f l, (register_submit s e p f l none).1 = s ∧
      (register_submit s e p f l none).2.2 =
        [Out.error (JVal.str "Could not connect to backend for registration.")]) ∧
    (∀ t c r, r.status ≠ 200 → r.status ≠ 201 →
      (create_attempt s t c (some r)).1 = s ∧
      (create_attempt s t c (some r)).2.2 = [Out.error (failMsg "Create" r)]) ∧
    (∀ t c, (create_attempt s t c none).1 = s ∧
      (create_attempt s t c none).2.2 = [Out.exception "ConnectionError"]) ∧
    (∀ r, r.status ≠ 200 →
      (blogs_attempt_main s (some r)).1 = s ∧
      (blogs_attempt_main s (some r)).2.2 =
        [Out.error (JVal.str ("Could not fetch blogs: " ++ toString r.status))] ∧
      (blogs_attempt_new s (some r)).1 = s ∧
      (blogs_attempt_new s (some r)).2.2 =
        [Out.error (JVal.str ("Could not fetch blogs: " ++ toString r.status))]) ∧
    ((blogs_attempt_main s none).1 = s ∧
      (blogs_attempt_main s none).2.2 = [Out.exception "ConnectionError"] ∧
      (blogs_attempt_new s none).1 = s ∧
      (blogs_attempt_new s none).2.2 = [Out.exception "ConnectionError"]) ∧
    (∀ r, pyTruthy s.selected_blog_id = true → r.status ≠ 200 →
      (blog_detail_attempt_main s (some r)).1 = s ∧
      (blog_detail_attempt_main s (some r)).2.2 =
        [Out.error (JVal.str ("Failed to load blog: " ++ toString r.status))] ∧
      (blog_detail_attempt_new s (some r)).1 = s ∧
      (blog_detail_attempt_new s (some r)).2.2 =
        [Out.error (JVal.str ("Failed to load blog: " ++ toString r.status))]) ∧
    (pyTruthy s.selected_blog_id = true →
      (blog_detail_attempt_main s none).1 = s ∧
      (blog_detail_attempt_main s none).2.2 = [Out.exception "ConnectionError"] ∧
      (blog_detail_attempt_new s none).1 = s ∧
      (blog_detail_attempt_new s none).2.2 = [Out.exception "ConnectionError"]) ∧
    (∀ t c r, r.status ≠ 200 → r.status ≠ 201 →
      (edit_save_attempt s t c (some r)).1 = s ∧
      (∀ kvs, s.edit_blog = JVal.obj kvs →
        (edit_save_attempt s t c (some r)).2.2 = [Out.error (failMsg "Update" r)])) ∧
    (∀ t c, (edit_save_attempt s t c none).1 = s ∧
      (∀ kvs, s.edit_blog = JVal.obj kvs →
        (edit_save_attempt s t c none).2.2 = [Out.exception "ConnectionError"])) ∧
    (∀ loads kw r, r.status ≠ 200 →
      (suggestions_attempt s loads kw (some r)).1 = s ∧
      (kwListOf kw ≠ [] →
        (suggestions_attempt s loads kw (some r)).2.2 =
          [Out.error (JVal.str ("Suggestion API failed: " ++ toString r.status))])) ∧
    (∀ loads kw, (suggestions_attempt s loads kw none).1 = s ∧
      (kwListOf kw ≠ [] →
        (suggestions_attempt s loads kw none).2.2 = [Out.exception "ConnectionError"])) ∧
    (∀ id r, r.status ≠ 200 → r.status ≠ 204 →
      (confirm_delete_attempt s id (some r)).1 =
        { s with confirm_delete := removePending s.confirm_delete id } ∧
      (confirm_delete_attempt s id (some r)).2.2 =
        [Out.error (JVal.str ("Delete failed: " ++ toString r.status))]) ∧
    (∀ id, confirm_delete_attempt s id none =
      (s, [Request.delete (BLOG_DETAIL_ENDPOINT id)],
        [Out.exception "ConnectionError"])) := by
  refine ⟨fun e p r h2 h3 => ?_, fun e p => ⟨rfl, rfl⟩, fun e p f l r => ?_,
    fun e p f l => ⟨rfl, rfl⟩, fun t c r h2 h3 => ?_, fun t c => ⟨rfl, rfl⟩,
    fun r hr => ?_, ⟨rfl, rfl, rfl, rfl⟩, fun r hsel hr => ?_, fun hsel => ?_,
    fun t c r h2 h3 => ?_, fun t c => ?_, fun loads kw r hr => ?_,
    fun loads kw => ?_, fun id r h2 h3 => ?_, fun id => rfl⟩
  · simp [login_submit, h2, h3]
  · constructor
    · by_cases hr : (r.status = 200 ∨ r.status = 201) <;> simp [register_submit, hr]
    · intro h2 h3
      simp [register_submit, h2, h3]
  · simp [create_attempt, create_submit, h2, h3]
  · simp [blogs_attempt_main, blogs_attempt_new, blogs_entry_main,
      blogs_entry_new, hr]
  · simp [blog_detail_attempt_main, blog_detail_attempt_new,
      blog_detail_entry_main, blog_detail_entry_new, hsel, hr]
  · simp [blog_detail_attempt_main, blog_detail_attempt_new, hsel]
  · constructor
    · cases hb : s.edit_blog <;> simp [edit_save_attempt, edit_save, hb, h2, h3]
    · intro kvs hb
      simp [edit_save_attempt, edit_save, hb, h2, h3]
  · constructor
    · cases hb : s.edit_blog <;> simp [edit_save_attempt, hb]
    · intro kvs hb
      simp [edit_save_attempt, hb]
  · constructor
    · by_cases hk : kwListOf kw = [] <;>
        simp [suggestions_attempt, suggestions_submit, hk, hr]
    · intro hk
      simp [suggestions_attempt, suggestions_submit, hk, hr]
  · constructor
    · by_cases hk : kwListOf kw = [] <;> simp [suggestions_attempt, hk]
    · intro hk
      simp [suggestions_attempt, hk]
  · simp [confirm_delete_attempt, confirm_delete_submit, h2, h3]

/-- Witness for C8: a 404 on login leaves the session unchanged; a 404
on delete clears only the pending mark; and a connection failure on
delete leaves a pending mark set, with its single attempted request
and the uncaught exception. -/
theorem failed_ops_leave_state_witness :
    (login_submit initSession "e" "p" (some ⟨404, JVal.null⟩)).1 = initSession ∧
    (confirm_delete_attempt initSession (JVal.num 1) (some ⟨404, JVal.null⟩)).1 =
      { initSession with
          confirm_delete := removePending initSession.confirm_delete (JVal.num 1) } ∧
    confirm_delete_attempt { initSession with confirm_delete := [JVal.num 1] }
        (JVal.num 1) none =
      ({ initSession with confirm_delete := [JVal.num 1] },
        [Request.delete (BLOG_DETAIL_ENDPOINT (JVal.num 1))],
        [Out.exception "ConnectionError"]) := by
  obtain ⟨hlog, -, -, -, -, -, -, -, -, -, -, -, -, -, hdel, -⟩ :=
    failed_ops_leave_state initSession
  obtain ⟨-, -, -, -, -, -, -, -, -, -, -, -, -, -, -, hconn⟩ :=
    failed_ops_leave_state { initSession with confirm_delete := [JVal.num 1] }
  exact ⟨(hlog "e" "p" ⟨404, JVal.null⟩ (by decide) (by decide)).1,
    (hdel (JVal.num 1) ⟨404, JVal.null⟩ (by decide) (by decide)).1,
    hconn (JVal.num 1)⟩

/-- C2 counterexample: a 200 whose dict body has neither a results key
nor any of the three session fields still moves the page to Dashboard
with a success banner, instead of the claimed error with the page
unchanged. -/
theorem login_transition_counterexample :
    jlookup [("foo", JVal.num 1)] "results" = none ∧
    jlookup [("foo", JVal.num 1)] "access_token" = none ∧
    (login_submit initSession "e" "p"
        (some ⟨200, JVal.obj [("foo", JVal.num 1)]⟩)).1.page = "dashboard" ∧
    initSession.page = "login" ∧
    (login_submit initSession "e" "p"
        (some ⟨200, JVal.obj [("foo", JVal.num 1)]⟩)).2.2 =
      [Out.success "Login successful"] := by
  refine ⟨rfl, rfl, by decide, rfl, by decide⟩

/-- C2 amended: on HTTP 200/201 the controller stores the
access_token, refresh_token and user entries of the unwrapped value
(null when missing) and moves to Dashboard whenever that value is any
dict; a non-dict unwrapped value is an error with the session and
page unchanged, as is any non-2xx status or a connection failure. -/
theorem login_transition (s : Session) (e p : String) (r : HResp) :
    (∀ kvs rkvs, (r.status = 200 ∨ r.status = 201) → r.body = JVal.obj kvs →
      loginResults kvs = JVal.obj rkvs →
      (login_submit s e p (some r)).1 =
        { s with
            access_token := dictGet rkvs "access_token"
            refresh_token := dictGet rkvs "refresh_token"
            user := dictGet rkvs "user"
            page := "dashboard" } ∧
      (login_submit s e p (some r)).2.2 = [Out.success "Login successful"]) ∧
    (∀ kvs, (r.status = 200 ∨ r.status = 201) → r.body = JVal.obj kvs →
      (∀ rkvs, loginResults kvs ≠ JVal.obj rkvs) →
      (login_submit s e p (some r)).1 = s ∧
      (login_submit s e p (some r)).2.2 =
        [Out.error (JVal.str "Unexpected login response format")]) ∧
    (r.status ≠ 200 → r.status ≠ 201 → (login_submit s e p (some r)).1 = s) ∧
    (login_submit s e p none).1 = s := by
  refine ⟨fun kvs rkvs h2 hb hres => ?_, fun kvs h2 hb hres => ?_,
    fun h2 h3 => ?_, rfl⟩
  · rcases h2 with h2 | h2 <;> constructor <;> simp [login_submit, h2, hb, hres]
  · rcases hres2 : loginResults kvs with _ | b | n | t | ys | rkvs
    · rcases h2 with h2 | h2 <;> constructor <;> simp [login_submit, h2, hb, hres2]
    · rcases h2 with h2 | h2 <;> constructor <;> simp [login_submit, h2, hb, hres2]
    · rcases h2 with h2 | h2 <;> constructor <;> simp [login_submit, h2, hb, hres2]
    · rcases h2 with h2 | h2 <;> constructor <;> simp [login_submit, h2, hb, hres2]
    · rcases h2 with h2 | h2 <;> constructor <;> simp [login_submit, h2, hb, hres2]
    · exact absurd hres2 (hres rkvs)
  · simp [login_submit, h2, h3]

/-- Witness for C2: the worked login example of the spec yields the
populated session on the Dashboard. -/
theorem login_transition_witness :
    (login_submit initSession "a@b.com" "x" (some loginRespEx)).1 =
      { initSession with
          access_token := JVal.str "T"
          refresh_token := JVal.str "R"
          user := JVal.obj [("email", JVal.str "a@b.com")]
          page := "dashboard" } := by
  have h := ((login_transition initSession "a@b.com" "x" loginRespEx).1
    [("results", JVal.obj
      [("access_token", JVal.str "T"), ("refresh_token", JVal.str "R"),
       ("user", JVal.obj [("email", JVal.str "a@b.com")])])]
    [("access_token", JVal.str "T"), ("refresh_token", JVal.str "R"),
     ("user", JVal.obj [("email", JVal.str "a@b.com")])]
    (Or.inr rfl) rfl (by decide)).1
  exact h.trans (by decide)

/-- C1 counterexample: in the second variant an entry attempt to the
edit-blog page with no access token and a blog record in hand is
dispatched with no token check: the page stays edit_blog rather than
being set to Login, and no warning is shown (no request is issued
either, but the claimed redirect and notification do not happen). -/
theorem protected_page_guard_counterexample :
    pyTruthy
      ({ initSession with page := "edit_blog", edit_blog := exBlog } : Session).access_token =
      false ∧
    (dispatch_new_ui { initSession with page := "edit_blog", edit_blog := exBlog }
        netNull).session.page = "edit_blog" ∧
    (dispatch_new_ui { initSession with page := "edit_blog", edit_blog := exBlog }
        netNull).outs = [] ∧
    ("edit_blog" : String) ≠ "login" := by
  refine ⟨rfl, by decide, by decide, by decide⟩

/-- C1 amended: without a token the second variant redirects Blogs,
BlogDetail, Dashboard and Suggestions entry attempts to Login with a
warning and no request, but dispatches EditBlog with no token check
(no request is issued on entry; the page stays edit_blog, or moves to
the blog list when no record is in hand); the first variant's sidebar
silently forces the page to Login before dispatch, with no request
and no notification. -/
theorem protected_page_guard (s : Session) (net : Request → HResp)
    (hnt : pyTruthy s.access_token = false) :
    ((s.page = "dashboard" ∨ s.page = "blogs" ∨ s.page = "blog_detail" ∨
        s.page = "suggestions") →
      dispatch_new_ui s net =
        ⟨{ s with page := "login" }, [], [Out.warning "Please login first"]⟩) ∧
    (s.page = "edit_blog" →
      (dispatch_new_ui s net).requests = [] ∧
      (dispatch_new_ui s net).session.page =
        (if pyTruthy s.edit_blog = true then "edit_blog" else "blogs")) ∧
    ((run_app_main s net).session.page = "login" ∧
      (run_app_main s net).requests = [] ∧ (run_app_main s net).outs = []) := by
  refine ⟨fun hp => ?_, fun hp => ?_, ?_⟩
  · rcases hp with h | h | h | h <;> simp [dispatch_new_ui, h, hnt]
  · by_cases he : pyTruthy s.edit_blog = true
    · cases hb : s.edit_blog <;> rw [hb] at he <;>
        simp_all [dispatch_new_ui, edit_blog_entry, mkRun, pyTruthy]
    · simp [dispatch_new_ui, hp, hnt, edit_blog_entry, mkRun, he]
  · simp [run_app_main, sidebar_force_main, hnt]

/-- Witness for C1: an entry attempt to the blogs page with no token,
in both variants. -/
theorem protected_page_guard_witness :
    dispatch_new_ui { initSession with page := "blogs" } netNull =
      ⟨{ initSession with page := "login" }, [], [Out.warning "Please login first"]⟩ ∧
    (run_app_main { initSession with page := "blogs" } netNull).session.page =
      "login" := by
  have h := protected_page_guard { initSession with page := "blogs" } netNull rfl
  exact ⟨h.1 (Or.inr (Or.inl rfl)), h.2.2.1⟩
